import Mathlib

/-!
Shallow embedding of the Insyd-Connect notification backend.

Sources embedded here:
- src/backend/services/notificationProcessor.js (event processing, fan-out,
  deduplication, content and url generation, recovery and retention sweeps)
- src/backend/models/Notification.js (status transitions, expiry cleanup)
- the User and Event schemas (src/unnamed/part_002): findByUserId,
  getUnprocessedEvents, the preference enumeration.

Conventions of the embedding:
- Wall-clock times are Int milliseconds since the epoch; Date.now() becomes an
  explicit now parameter.
- JavaScript strings become Lean String; the substring and length operations
  of the COMMENT template are modelled on the character list (String.data).
- The MongoDB stores become Lean lists; findOne becomes List.find?, deleteMany
  becomes List.filter on the negated predicate, findOneAndUpdate becomes a
  first-match replacement, and a query sort becomes List.insertionSort.
- Fallible writes are modelled by oracles: saveFails says for which recipient
  the notification save rejects, updateFails says whether the final
  event-marking write rejects. Reads are pure.
- uuidv4 becomes an explicit id supply indexed by the loop position.
-/

structure Preferences where
  emailNotifications : Bool
  pushNotifications : Bool
  notificationTypes : List String
deriving DecidableEq

structure User where
  userId : String
  username : String
  email : String
  preferences : Preferences
  followers : List String
  following : List String
deriving DecidableEq

structure EventData where
  postId : Option String
  commentId : Option String
  content : Option String
  mentionedUsers : Option (List String)
deriving DecidableEq

structure Event where
  eventId : String
  type : String
  sourceUserId : String
  targetUserId : Option String
  data : EventData
  timestamp : Int
  processed : Bool
  notificationsGenerated : List (String × String)
deriving DecidableEq

structure Notification where
  notificationId : String
  userId : String
  type : String
  content : String
  status : String
  relatedEventId : String
  sourceUserId : String
  dataPostId : Option String
  dataCommentId : Option String
  dataUrl : String
  timestamp : Int
  readAt : Option Int
  dismissedAt : Option Int
  expiresAt : Int
deriving DecidableEq

structure DB where
  users : List User
  events : List Event
  notifications : List Notification
deriving DecidableEq

/-- The enumeration that the User schema allows inside
preferences.notificationTypes, which is also its default value
(src/unnamed/part_002 lines 33-37). Note that SHARE is absent. -/
def allowedNotificationTypes : List String :=
  ["LIKE", "FOLLOW", "COMMENT", "POST_CREATE", "MENTION"]

/-- User.findByUserId: findOne on the userId field. -/
def findByUserId (users : List User) (uid : String) : Option User :=
  users.find? (fun u => u.userId == uid)

/-- shouldReceiveNotification from notificationProcessor.js lines 174-176. -/
def shouldReceiveNotification (u : User) (eventType : String) : Bool :=
  u.preferences.notificationTypes.contains eventType

/-- The shared branch of getNotificationRecipients for LIKE, COMMENT, FOLLOW
and SHARE: notify targetUserId when it is truthy, differs from sourceUserId,
resolves to a user, and that user subscribes to the event type. -/
def targetRecipient (users : List User) (e : Event) : List User :=
  match e.targetUserId with
  | none => []
  | some tid =>
    if tid ≠ "" ∧ tid ≠ e.sourceUserId then
      match findByUserId users tid with
      | none => []
      | some tu => if shouldReceiveNotification tu e.type then [tu] else []
    else []

/-- The POST_CREATE branch: all users whose following list contains the
source user, filtered by preference. -/
def followerRecipients (users : List User) (e : Event) : List User :=
  (users.filter (fun u => u.following.contains e.sourceUserId)).filter
    (fun u => shouldReceiveNotification u e.type)

/-- The MENTION branch: every id in data.mentionedUsers other than the
source user that resolves and subscribes, in list order. -/
def mentionRecipients (users : List User) (e : Event) : List User :=
  match e.data.mentionedUsers with
  | none => []
  | some ids =>
    ids.filterMap (fun mid =>
      if mid = e.sourceUserId then none
      else
        match findByUserId users mid with
        | none => none
        | some mu => if shouldReceiveNotification mu e.type then some mu else none)

/-- getNotificationRecipients from notificationProcessor.js lines 102-169. -/
def getNotificationRecipients (users : List User) (e : Event) : List User :=
  if e.type = "LIKE" then targetRecipient users e
  else if e.type = "COMMENT" then targetRecipient users e
  else if e.type = "FOLLOW" then targetRecipient users e
  else if e.type = "POST_CREATE" then followerRecipients users e
  else if e.type = "MENTION" then mentionRecipients users e
  else if e.type = "SHARE" then targetRecipient users e
  else []

/-- JavaScript content.substring(0, 50): the first fifty characters. -/
def substringFirst50 (c : String) : String :=
  String.mk (c.data.take 50)

/-- generateNotificationContent from notificationProcessor.js lines 231-258.
The COMMENT branch tests truthiness of data.content, so an absent or empty
string falls back to the generic text. -/
def generateNotificationContent (e : Event) (su : User) : String :=
  let username := su.username
  if e.type = "LIKE" then username ++ " liked your post"
  else if e.type = "COMMENT" then
    match e.data.content with
    | some c =>
      if c.data.isEmpty then username ++ " commented on your post"
      else
        username ++ " commented: \"" ++ substringFirst50 c ++
          (if 50 < c.data.length then "..." else "") ++ "\""
    | none => username ++ " commented on your post"
  else if e.type = "FOLLOW" then username ++ " started following you"
  else if e.type = "POST_CREATE" then username ++ " shared a new post"
  else if e.type = "MENTION" then username ++ " mentioned you in a post"
  else if e.type = "SHARE" then username ++ " shared your post"
  else username ++ " performed an action"

/-- The postId-based deep link used by several branches of
generateNotificationUrl; data.postId is tested for truthiness. -/
def postUrl (e : Event) (baseUrl : String) : String :=
  match e.data.postId with
  | some pid => if pid ≠ "" then baseUrl ++ "/posts/" ++ pid else baseUrl
  | none => baseUrl

/-- generateNotificationUrl from notificationProcessor.js lines 263-284. -/
def generateNotificationUrl (e : Event) (baseUrl : String) : String :=
  if e.type = "LIKE" then postUrl e baseUrl
  else if e.type = "COMMENT" then postUrl e baseUrl
  else if e.type = "SHARE" then postUrl e baseUrl
  else if e.type = "FOLLOW" then baseUrl ++ "/profile/" ++ e.sourceUserId
  else if e.type = "POST_CREATE" then postUrl e baseUrl
  else if e.type = "MENTION" then postUrl e baseUrl
  else baseUrl

/-- The deduplication query of createNotification (lines 184-190): same
recipient, same source, same type, same data.postId, and a timestamp within
the trailing five-minute window ending at now. -/
def isRecentDuplicate (e : Event) (su tu : User) (now : Int) (n : Notification) : Bool :=
  n.userId == tu.userId && n.sourceUserId == su.userId && n.type == e.type &&
    n.dataPostId == e.data.postId && decide (now - 300000 ≤ n.timestamp)

/-- The notification record built by createNotification (lines 200-215);
expiresAt defaults to creation time plus thirty days. -/
def mkNotification (e : Event) (su tu : User) (now : Int) (freshId : String)
    (baseUrl : String) : Notification :=
  { notificationId := freshId
    userId := tu.userId
    type := e.type
    content := generateNotificationContent e su
    status := "unread"
    relatedEventId := e.eventId
    sourceUserId := su.userId
    dataPostId := e.data.postId
    dataCommentId := e.data.commentId
    dataUrl := generateNotificationUrl e baseUrl
    timestamp := now
    readAt := none
    dismissedAt := none
    expiresAt := now + 2592000000 }

/-- createNotification from notificationProcessor.js lines 181-226, with the
save always succeeding: suppress when a recent duplicate exists, otherwise
build and append the new notification to the store. -/
def createNotification (store : List Notification) (e : Event) (su tu : User)
    (now : Int) (freshId : String) (baseUrl : String) :
    Option Notification × List Notification :=
  match store.find? (isRecentDuplicate e su tu now) with
  | some _ => (none, store)
  | none =>
    let n := mkNotification e su tu now freshId baseUrl
    (some n, store ++ [n])

/-- The per-recipient loop of processEvent (lines 66-76): for each recipient,
attempt createNotification; a duplicate suppression contributes nothing, a
failing save is caught and contributes nothing, a successful save appends to
the store and to the list of written notifications. Returns the written
notifications and the final store. -/
def fanout (e : Event) (su : User) (now : Int) (uuid : Nat → String)
    (saveFails : String → Bool) (baseUrl : String) :
    Nat → List User → List Notification → List Notification × List Notification
  | _, [], store => ([], store)
  | i, tu :: rest, store =>
    match store.find? (isRecentDuplicate e su tu now) with
    | some _ => fanout e su now uuid saveFails baseUrl (i + 1) rest store
    | none =>
      if saveFails tu.userId then
        fanout e su now uuid saveFails baseUrl (i + 1) rest store
      else
        let n := mkNotification e su tu now (uuid i) baseUrl
        let r := fanout e su now uuid saveFails baseUrl (i + 1) rest (store ++ [n])
        (n :: r.1, r.2)

/-- Event.findOneAndUpdate of processEvent lines 79-88: replace the first
event with the given id, setting processed and notificationsGenerated in the
same update. -/
def markProcessed : List Event → String → List (String × String) → List Event
  | [], _, _ => []
  | g :: rest, eid, ps =>
    if g.eventId == eid then
      { g with processed := true, notificationsGenerated := ps } :: rest
    else g :: markProcessed rest eid ps

/-- Outcome of processEvent: an early return because the source user is
missing, a normal return carrying the written notifications, or a raised
(rethrown) error. -/
inductive ProcessResult where
  | noSource : ProcessResult
  | ok : List Notification → ProcessResult
  | raised : ProcessResult
deriving DecidableEq

/-- processEvent from notificationProcessor.js lines 51-97. A missing source
user logs and returns early without raising. Individual recipient failures
are caught inside the loop. The final event update, when it fails, is
rethrown by the outer catch, leaving the notifications already written. -/
def processEvent (db : DB) (e : Event) (now : Int) (uuid : Nat → String)
    (saveFails : String → Bool) (updateFails : Bool) (baseUrl : String) :
    ProcessResult × DB :=
  match findByUserId db.users e.sourceUserId with
  | none => (ProcessResult.noSource, db)
  | some su =>
    let recips := getNotificationRecipients db.users e
    let r := fanout e su now uuid saveFails baseUrl 0 recips db.notifications
    let db1 : DB := { db with notifications := r.2 }
    if updateFails then (ProcessResult.raised, db1)
    else
      (ProcessResult.ok r.1,
       { db1 with
         events := markProcessed db1.events e.eventId
           (r.1.map (fun n => (n.notificationId, n.userId))) })

/-- Ordering of events by ascending timestamp, as in the Mongo sort of
getUnprocessedEvents. -/
def eventLe (a b : Event) : Prop := a.timestamp ≤ b.timestamp

instance : DecidableRel eventLe := fun a b => Int.decLe a.timestamp b.timestamp

instance : IsTotal Event eventLe := ⟨fun a b => le_total a.timestamp b.timestamp⟩

instance : IsTrans Event eventLe := ⟨fun _ _ _ h1 h2 => le_trans h1 h2⟩

/-- Event.getUnprocessedEvents (src/unnamed/part_002 lines 212-215): all
events with processed false, sorted oldest first. -/
def getUnprocessedEvents (events : List Event) : List Event :=
  List.insertionSort eventLe (events.filter (fun g => !g.processed))

/-- The sequential loop of processUnprocessedEvents (lines 301-303): feed
each selected event through processEvent on the evolving database. An error
raised by processEvent is caught by the outer catch of the sweep, which ends
the loop. The uuid supply is indexed per event and per recipient, and the
final-update oracle per event position. -/
def sweepGo (now : Int) (uuid2 : Nat → Nat → String) (saveFails : String → Bool)
    (updateFails : Nat → Bool) (baseUrl : String) :
    Nat → List Event → DB → DB
  | _, [], db => db
  | i, f :: rest, db =>
    if (processEvent db f now (uuid2 i) saveFails (updateFails i) baseUrl).1 =
        ProcessResult.raised then
      (processEvent db f now (uuid2 i) saveFails (updateFails i) baseUrl).2
    else
      sweepGo now uuid2 saveFails updateFails baseUrl (i + 1) rest
        (processEvent db f now (uuid2 i) saveFails (updateFails i) baseUrl).2

/-- processUnprocessedEvents from notificationProcessor.js lines 296-309. -/
def processUnprocessedEvents (db : DB) (now : Int) (uuid2 : Nat → Nat → String)
    (saveFails : String → Bool) (updateFails : Nat → Bool) (baseUrl : String) : DB :=
  sweepGo now uuid2 saveFails updateFails baseUrl 0 (getUnprocessedEvents db.events) db

/-- cleanupOldNotifications from notificationProcessor.js lines 314-327:
deleteMany of notifications older than thirty days whose status is read or
dismissed; the survivors are returned. -/
def cleanupOldNotifications (store : List Notification) (now : Int) :
    List Notification :=
  store.filter (fun n =>
    !(decide (n.timestamp < now - 2592000000) &&
       (n.status == "read" || n.status == "dismissed")))

/-- Notification.cleanupExpired (Notification.js lines 121-125): deleteMany
of every notification whose expiresAt is in the past, with no status filter;
the survivors are returned. -/
def cleanupExpired (store : List Notification) (now : Int) : List Notification :=
  store.filter (fun n => !decide (n.expiresAt < now))

/-- The POST /api/notifications/cleanup route handler
(routes/notifications.js lines 213-228): it runs Notification.cleanupExpired
and reports the number of deleted records. -/
def postNotificationsCleanup (store : List Notification) (now : Int) :
    List Notification × Nat :=
  let remaining := cleanupExpired store now
  (remaining, store.length - remaining.length)

/-- notificationSchema.methods.markAsRead (Notification.js lines 128-135):
only an unread notification transitions to read and acquires readAt; any
other status is returned unchanged. -/
def markAsRead (n : Notification) (now : Int) : Notification :=
  if n.status = "unread" then { n with status := "read", readAt := some now }
  else n

/-- notificationSchema.methods.dismiss (Notification.js lines 137-141):
unconditionally set the status to dismissed and stamp dismissedAt. -/
def dismiss (n : Notification) (now : Int) : Notification :=
  { n with status := "dismissed", dismissedAt := some now }

/-- The per-document action of Notification.markAllAsRead (lines 111-119):
the updateMany filter selects the user and status unread and the update sets
read and readAt. -/
def markAllStep (uid : String) (now : Int) (n : Notification) : Notification :=
  if n.userId = uid ∧ n.status = "unread" then
    { n with status := "read", readAt := some now }
  else n

/-- Notification.markAllAsRead applied to the whole store. -/
def markAllAsRead (store : List Notification) (uid : String) (now : Int) :
    List Notification :=
  store.map (markAllStep uid now)

/-- The status transitions the specification allows: stay, unread to read,
and unread or read to dismissed. -/
def statusStep (s t : String) : Prop :=
  s = t ∨ (s = "unread" ∧ t = "read") ∨
    ((s = "unread" ∨ s = "read") ∧ t = "dismissed")

/-- Number of notifications in a store matching a recipient, source, type
and postId tuple. -/
def countPair (store : List Notification) (uid src ty : String)
    (pid : Option String) : Nat :=
  (store.filter (fun n =>
    n.userId == uid && n.sourceUserId == src && n.type == ty &&
      n.dataPostId == pid)).length

/-! Helper lemmas about the embedded operations. -/

theorem fanout_store (e : Event) (su : User) (now : Int) (uuid : Nat → String)
    (saveFails : String → Bool) (baseUrl : String) :
    ∀ (recips : List User) (i : Nat) (store : List Notification),
      (fanout e su now uuid saveFails baseUrl i recips store).2 =
        store ++ (fanout e su now uuid saveFails baseUrl i recips store).1
  | [], i, store => by simp [fanout]
  | tu :: rest, i, store => by
    rw [fanout]
    cases h : store.find? (isRecentDuplicate e su tu now) with
    | some n0 =>
      simpa using fanout_store e su now uuid saveFails baseUrl rest (i + 1) store
    | none =>
      by_cases hf : saveFails tu.userId
      · simpa [hf] using fanout_store e su now uuid saveFails baseUrl rest (i + 1) store
      · have h2 := fanout_store e su now uuid saveFails baseUrl rest (i + 1)
          (store ++ [mkNotification e su tu now (uuid i) baseUrl])
        simp only [hf, if_false]
        simp [h2]

theorem fanout_written (e : Event) (su : User) (now : Int) (uuid : Nat → String)
    (saveFails : String → Bool) (baseUrl : String) :
    ∀ (recips : List User) (i : Nat) (store : List Notification),
      ∀ n ∈ (fanout e su now uuid saveFails baseUrl i recips store).1,
        n.relatedEventId = e.eventId ∧ n.timestamp = now
  | [], i, store => by simp [fanout]
  | tu :: rest, i, store => by
    rw [fanout]
    cases h : store.find? (isRecentDuplicate e su tu now) with
    | some n0 =>
      simpa using fanout_written e su now uuid saveFails baseUrl rest (i + 1) store
    | none =>
      by_cases hf : saveFails tu.userId
      · simpa [hf] using fanout_written e su now uuid saveFails baseUrl rest (i + 1) store
      · have h2 := fanout_written e su now uuid saveFails baseUrl rest (i + 1)
          (store ++ [mkNotification e su tu now (uuid i) baseUrl])
        simp only [hf, if_false]
        intro n hn
        rcases List.mem_cons.mp hn with h3 | h3
        · subst h3; exact ⟨rfl, rfl⟩
        · exact h2 n h3

theorem markProcessed_filter_ne (eid tgt : String) (ps : List (String × String))
    (hne : eid ≠ tgt) :
    ∀ evs : List Event,
      (markProcessed evs eid ps).filter (fun g => g.eventId == tgt) =
        evs.filter (fun g => g.eventId == tgt)
  | [] => rfl
  | g :: rest => by
    rw [markProcessed]
    by_cases h : g.eventId = eid
    · have h1 : (g.eventId == eid) = true := by simp [h]
      have h2 : (g.eventId == tgt) = false := by simp [h, hne]
      simp [h1, List.filter_cons, h2]
    · have h1 : (g.eventId == eid) = false := by simp [h]
      simp [h1, List.filter_cons, markProcessed_filter_ne eid tgt ps hne rest]

theorem markProcessed_find (eid : String) (ps : List (String × String)) :
    ∀ (evs : List Event) (ev : Event),
      evs.find? (fun g => g.eventId == eid) = some ev →
      (markProcessed evs eid ps).find? (fun g => g.eventId == eid) =
        some { ev with processed := true, notificationsGenerated := ps }
  | [], ev => by simp
  | g :: rest, ev => by
    intro hfind
    rw [markProcessed]
    by_cases h : g.eventId = eid
    · have h1 : (g.eventId == eid) = true := by simp [h]
      have hg : g = ev := by
        have := List.find?_cons_of_pos (p := fun g => g.eventId == eid) rest h1
        rw [this] at hfind
        exact Option.some.inj hfind
      subst hg
      simp [h1, List.find?_cons_of_pos]
    · have h1 : (g.eventId == eid) = false := by simp [h]
      have hrest : rest.find? (fun g => g.eventId == eid) = some ev := by
        rwa [List.find?_cons_of_neg rest (by simp [h1])] at hfind
      simp only [h1, Bool.false_eq_true, if_false]
      rw [List.find?_cons_of_neg _ (by simp [h1])]
      exact markProcessed_find eid ps rest ev hrest

theorem processEvent_effect (db : DB) (e : Event) (now : Int) (uuid : Nat → String)
    (saveFails : String → Bool) (updateFails : Bool) (baseUrl : String) :
    (processEvent db e now uuid saveFails updateFails baseUrl).2.users = db.users
    ∧ (∃ new,
        (processEvent db e now uuid saveFails updateFails baseUrl).2.notifications =
          db.notifications ++ new ∧ ∀ n ∈ new, n.relatedEventId = e.eventId)
    ∧ ∀ tgt, tgt ≠ e.eventId →
        (processEvent db e now uuid saveFails updateFails baseUrl).2.events.filter
            (fun g => g.eventId == tgt) =
          db.events.filter (fun g => g.eventId == tgt) := by
  cases hs : findByUserId db.users e.sourceUserId with
  | none =>
    simp [processEvent, hs]
  | some su =>
    have hst := fanout_store e su now uuid saveFails baseUrl
      (getNotificationRecipients db.users e) 0 db.notifications
    have hw := fanout_written e su now uuid saveFails baseUrl
      (getNotificationRecipients db.users e) 0 db.notifications
    by_cases hu : updateFails
    · refine ⟨by simp [processEvent, hs, hu], ⟨_, ?_, fun n hn => (hw n hn).1⟩, ?_⟩
      · simp only [processEvent, hs, hu, if_true]
        exact hst
      · intro tgt _
        simp [processEvent, hs, hu]
    · refine ⟨by simp [processEvent, hs, hu], ⟨_, ?_, fun n hn => (hw n hn).1⟩, ?_⟩
      · simp only [processEvent, hs, hu, if_false]
        exact hst
      · intro tgt hne
        simp only [processEvent, hs, hu, if_false]
        exact markProcessed_filter_ne e.eventId tgt _ (fun hx => hne hx.symm) db.events

theorem sweepGo_effect (now : Int) (uuid2 : Nat → Nat → String)
    (saveFails : String → Bool) (updateFails : Nat → Bool) (baseUrl : String)
    (tgt : String) :
    ∀ (evs : List Event) (i : Nat) (db : DB),
      (∀ f ∈ evs, f.eventId ≠ tgt) →
      (sweepGo now uuid2 saveFails updateFails baseUrl i evs db).events.filter
          (fun g => g.eventId == tgt) =
        db.events.filter (fun g => g.eventId == tgt)
      ∧ ∃ new,
          (sweepGo now uuid2 saveFails updateFails baseUrl i evs db).notifications =
            db.notifications ++ new ∧ ∀ n ∈ new, n.relatedEventId ≠ tgt
  | [], i, db => by
    intro _
    exact ⟨rfl, [], by simp [sweepGo], by simp⟩
  | f :: rest, i, db => by
    intro hall
    have hf : f.eventId ≠ tgt := hall f (List.mem_cons_self f rest)
    have hone := processEvent_effect db f now (uuid2 i) saveFails (updateFails i) baseUrl
    rcases hone with ⟨_, ⟨new1, hn1, hn1rel⟩, hev1⟩
    have hev1t := hev1 tgt (fun hx => hf hx.symm)
    rw [sweepGo]
    by_cases hr :
        (processEvent db f now (uuid2 i) saveFails (updateFails i) baseUrl).1 =
          ProcessResult.raised
    · simp only [hr, if_true]
      refine ⟨hev1t, new1, hn1, ?_⟩
      intro n hn
      rw [hn1rel n hn]
      exact hf
    · simp only [hr, if_false]
      have ih := sweepGo_effect now uuid2 saveFails updateFails baseUrl tgt rest (i + 1)
        (processEvent db f now (uuid2 i) saveFails (updateFails i) baseUrl).2
        (fun g hg => hall g (List.mem_cons_of_mem f hg))
      rcases ih with ⟨ihev, newr, ihn, ihnrel⟩
      refine ⟨by rw [ihev, hev1t], new1 ++ newr, ?_, ?_⟩
      · rw [ihn, hn1, List.append_assoc]
      · intro n hn
        rcases List.mem_append.mp hn with h1 | h1
        · rw [hn1rel n h1]; exact hf
        · exact ihnrel n h1

theorem processEvent_notifications_of_no_recipients (db : DB) (e : Event)
    (now : Int) (uuid : Nat → String) (saveFails : String → Bool)
    (updateFails : Bool) (baseUrl : String)
    (h : getNotificationRecipients db.users e = []) :
    (processEvent db e now uuid saveFails updateFails baseUrl).2.notifications =
      db.notifications := by
  cases hs : findByUserId db.users e.sourceUserId with
  | none => simp [processEvent, hs]
  | some su =>
    by_cases hu : updateFails <;> simp [processEvent, hs, hu, h, fanout]

theorem shouldReceive_iff (u : User) (t : String) :
    shouldReceiveNotification u t = true ↔ t ∈ u.preferences.notificationTypes := by
  simp [shouldReceiveNotification, List.elem_iff]

/-! Concrete fixtures used by the examples and witnesses. -/

def fullPrefs : Preferences :=
  { emailNotifications := true
    pushNotifications := true
    notificationTypes := allowedNotificationTypes }

def exAlice : User :=
  { userId := "alice", username := "Alice", email := "alice@mail.com",
    preferences := fullPrefs, followers := [], following := [] }

def exBob : User :=
  { userId := "bob", username := "Bob", email := "bob@mail.com",
    preferences := fullPrefs, followers := [], following := [] }

def exU1 : User :=
  { userId := "u1", username := "User One", email := "u1@mail.com",
    preferences := fullPrefs, followers := [], following := [] }

def exU2 : User :=
  { userId := "u2", username := "User Two", email := "u2@mail.com",
    preferences := fullPrefs, followers := [], following := [] }

def exU3 : User :=
  { userId := "u3", username := "User Three", email := "u3@mail.com",
    preferences := fullPrefs, followers := [], following := [] }

def exLike (eid : String) (ts : Int) : Event :=
  { eventId := eid, type := "LIKE", sourceUserId := "alice",
    targetUserId := some "bob",
    data := { postId := some "p1", commentId := none, content := none,
              mentionedUsers := none },
    timestamp := ts, processed := false, notificationsGenerated := [] }

def exLikeDb : DB :=
  { users := [exAlice, exBob],
    events := [exLike "e1" 0, exLike "e2" 200000],
    notifications := [] }

def exUuid (tag : String) : Nat → String := fun i => tag ++ toString i

def exBase : String := "http://localhost:3000"

/-- The database after the first LIKE event has been processed at time 0. -/
def exAfterFirstLike : DB :=
  (processEvent exLikeDb (exLike "e1" 0) 0 (exUuid "a") (fun _ => false) false exBase).2

def exMentionEvent : Event :=
  { eventId := "em", type := "MENTION", sourceUserId := "u2",
    targetUserId := none,
    data := { postId := some "p9", commentId := none, content := none,
              mentionedUsers := some ["u1", "u2", "u3"] },
    timestamp := 0, processed := false, notificationsGenerated := [] }

def exMentionUsers : List User := [exU1, exU2, exU3]

def exMentionDb : DB :=
  { users := exMentionUsers, events := [exMentionEvent], notifications := [] }

/-- C1: an existing notification for the same recipient, source, type and
postId whose timestamp falls in the trailing five-minute window before the
processing time suppresses the write without error; when every such
notification lies outside the window, a second notification is written.
The two closed conjuncts run the end-to-end two-LIKE scenario: a duplicate
200 seconds later is suppressed (one notification for the pair), while one
360 seconds later is written (two notifications). -/
theorem C1_dedup_window (store : List Notification) (e : Event) (su tu : User)
    (now : Int) (freshId : String) (baseUrl : String) :
    ((∃ n ∈ store, n.userId = tu.userId ∧ n.sourceUserId = su.userId ∧
        n.type = e.type ∧ n.dataPostId = e.data.postId ∧
        now - 300000 ≤ n.timestamp) →
      createNotification store e su tu now freshId baseUrl = (none, store))
    ∧ ((∀ n ∈ store, n.userId = tu.userId → n.sourceUserId = su.userId →
          n.type = e.type → n.dataPostId = e.data.postId →
          n.timestamp < now - 300000) →
      createNotification store e su tu now freshId baseUrl =
        (some (mkNotification e su tu now freshId baseUrl),
         store ++ [mkNotification e su tu now freshId baseUrl]))
    ∧ countPair (processEvent exAfterFirstLike (exLike "e2" 200000) 200000
        (exUuid "b") (fun _ => false) false exBase).2.notifications
        "bob" "alice" "LIKE" (some "p1") = 1
    ∧ countPair (processEvent exAfterFirstLike (exLike "e2" 360000) 360000
        (exUuid "b") (fun _ => false) false exBase).2.notifications
        "bob" "alice" "LIKE" (some "p1") = 2 := by
  refine ⟨?_, ?_, by decide, by decide⟩
  · rintro ⟨n, hn, h1, h2, h3, h4, h5⟩
    have hsome : (store.find? (isRecentDuplicate e su tu now)).isSome := by
      refine List.find?_isSome.mpr ⟨n, hn, ?_⟩
      simp [isRecentDuplicate, h1, h2, h3, h4, h5]
    cases hf : store.find? (isRecentDuplicate e su tu now) with
    | none => rw [hf] at hsome; simp at hsome
    | some x => simp [createNotification, hf]
  · intro hall
    have hnone : store.find? (isRecentDuplicate e su tu now) = none := by
      refine List.find?_eq_none.mpr ?_
      intro x hx hdup
      simp only [isRecentDuplicate, Bool.and_eq_true, beq_iff_eq,
        decide_eq_true_eq] at hdup
      obtain ⟨⟨⟨⟨h1, h2⟩, h3⟩, h4⟩, h5⟩ := hdup
      exact absurd h5 (not_le.mpr (hall x hx h1 h2 h3 h4))
    simp [createNotification, hnone]

/-- C1 witness: the suppressing half applied to a store holding a matching
in-window notification, and the writing half applied to an empty store. -/
theorem C1_dedup_window_witness :
    createNotification
        [mkNotification (exLike "e1" 0) exAlice exBob 0 "a0" exBase]
        (exLike "e2" 200000) exAlice exBob 200000 "b0" exBase =
      (none, [mkNotification (exLike "e1" 0) exAlice exBob 0 "a0" exBase])
    ∧ createNotification [] (exLike "e1" 0) exAlice exBob 0 "a0" exBase =
      (some (mkNotification (exLike "e1" 0) exAlice exBob 0 "a0" exBase),
       [] ++ [mkNotification (exLike "e1" 0) exAlice exBob 0 "a0" exBase]) := by
  constructor
  · exact (C1_dedup_window
      [mkNotification (exLike "e1" 0) exAlice exBob 0 "a0" exBase]
      (exLike "e2" 200000) exAlice exBob 200000 "b0" exBase).1 (by decide)
  · exact (C1_dedup_window [] (exLike "e1" 0) exAlice exBob 0 "a0" exBase).2.1
      (by decide)

def ghostEvent : Event :=
  { eventId := "e-ghost", type := "LIKE", sourceUserId := "ghost",
    targetUserId := some "bob",
    data := { postId := some "p1", commentId := none, content := none,
              mentionedUsers := none },
    timestamp := 0, processed := false, notificationsGenerated := [] }

def ghostDb : DB := { users := [], events := [ghostEvent], notifications := [] }

/-- C3 counterexample: on an event whose source user does not resolve,
processEvent returns early with no raise: the outcome is the ordinary
noSource return, not raised, and the database is untouched. This refutes
the claim that the condition is reported by raising. -/
theorem C3_no_raise_counterexample :
    processEvent ghostDb ghostEvent 0 (exUuid "g") (fun _ => false) false exBase =
      (ProcessResult.noSource, ghostDb)
    ∧ (processEvent ghostDb ghostEvent 0 (exUuid "g") (fun _ => false) false
        exBase).1 ≠ ProcessResult.raised := by
  constructor
  · rfl
  · decide

/-- C3 amended: for every event whose sourceUserId does not resolve,
processEvent aborts, writing no notification and leaving the event record
(and its processed flag) untouched, but it reports the condition only by
logging and returns without raising; processEvent raises neither for a
missing source user nor for individual recipient failures — only a failing
final processed-marking write makes it raise. -/
theorem C3_missing_source_aborts (db : DB) (e : Event) (now : Int)
    (uuid : Nat → String) (saveFails : String → Bool) (updateFails : Bool)
    (baseUrl : String) :
    (findByUserId db.users e.sourceUserId = none →
      processEvent db e now uuid saveFails updateFails baseUrl =
        (ProcessResult.noSource, db))
    ∧ ((processEvent db e now uuid saveFails updateFails baseUrl).1 =
        ProcessResult.raised → updateFails = true) := by
  constructor
  · intro h
    simp [processEvent, h]
  · intro hr
    cases hs : findByUserId db.users e.sourceUserId with
    | none => rw [processEvent, hs] at hr; exact absurd hr (by simp)
    | some su =>
      by_cases hu : updateFails
      · exact hu
      · rw [processEvent, hs] at hr
        simp [hu] at hr

/-- C3 witness: the amended theorem applied to the concrete missing-source
database. -/
theorem C3_missing_source_aborts_witness :
    processEvent ghostDb ghostEvent 0 (exUuid "g") (fun _ => false) false exBase =
      (ProcessResult.noSource, ghostDb) :=
  (C3_missing_source_aborts ghostDb ghostEvent 0 (exUuid "g") (fun _ => false)
    false exBase).1 (by decide)

/-- C5: a LIKE, COMMENT or SHARE event whose target equals its source
resolves to no recipients and its processing writes no notification; for a
MENTION event the source user never appears among the recipients even when
listed in data.mentionedUsers; on the concrete example with mentioned users
u1, u2 and u3 and source u2, exactly u1 and u3 are notified. -/
theorem C5_self_exclusion (db : DB) (e : Event) (now : Int)
    (uuid : Nat → String) (saveFails : String → Bool) (updateFails : Bool)
    (baseUrl : String) :
    ((e.type = "LIKE" ∨ e.type = "COMMENT" ∨ e.type = "SHARE") →
      e.targetUserId = some e.sourceUserId →
      getNotificationRecipients db.users e = []
      ∧ (processEvent db e now uuid saveFails updateFails baseUrl).2.notifications =
          db.notifications)
    ∧ (e.type = "MENTION" →
      ∀ u ∈ getNotificationRecipients db.users e, u.userId ≠ e.sourceUserId)
    ∧ (getNotificationRecipients exMentionUsers exMentionEvent).map
        (fun u => u.userId) = ["u1", "u3"] := by
  refine ⟨?_, ?_, by decide⟩
  · intro hty htgt
    have hrec : getNotificationRecipients db.users e = [] := by
      have htr : targetRecipient db.users e = [] := by
        rw [targetRecipient, htgt]
        simp
      rcases hty with h | h | h <;> simp [getNotificationRecipients, h, htr]
    exact ⟨hrec,
      processEvent_notifications_of_no_recipients db e now uuid saveFails
        updateFails baseUrl hrec⟩
  · intro hty u hu
    rw [getNotificationRecipients] at hu
    simp only [hty] at hu
    norm_num at hu
    rw [mentionRecipients] at hu
    cases hm : e.data.mentionedUsers with
    | none => rw [hm] at hu; simp at hu
    | some ids =>
      rw [hm] at hu
      rcases List.mem_filterMap.mp hu with ⟨mid, hmid, heq⟩
      by_cases hsrc : mid = e.sourceUserId
      · rw [if_pos hsrc] at heq; exact absurd heq (by simp)
      · rw [if_neg hsrc] at heq
        cases hf : findByUserId db.users mid with
        | none => rw [hf] at heq; exact absurd heq (by simp)
        | some mu =>
          rw [hf] at heq
          by_cases hrcv : shouldReceiveNotification mu e.type = true
          · simp only [hrcv, if_true] at heq
            have hmu : mu = u := Option.some.inj heq
            have hbeq := List.find?_some hf
            have huid : u.userId = mid := by
              rw [← hmu]
              exact beq_iff_eq.mp hbeq
            rw [huid]
            exact hsrc
          · simp [hrcv] at heq

/-- C5 witness: a SHARE event from bob targeting bob resolves to no
recipients and leaves the notification store unchanged. -/
theorem C5_self_exclusion_witness :
    getNotificationRecipients exLikeDb.users
      { eventId := "es", type := "SHARE", sourceUserId := "bob",
        targetUserId := some "bob",
        data := { postId := some "p1", commentId := none, content := none,
                  mentionedUsers := none },
        timestamp := 0, processed := false, notificationsGenerated := [] } = []
    ∧ (processEvent exLikeDb
        { eventId := "es", type := "SHARE", sourceUserId := "bob",
          targetUserId := some "bob",
          data := { postId := some "p1", commentId := none, content := none,
                    mentionedUsers := none },
          timestamp := 0, processed := false, notificationsGenerated := [] }
        0 (exUuid "s") (fun _ => false) false exBase).2.notifications =
      exLikeDb.notifications :=
  (C5_self_exclusion exLikeDb
    { eventId := "es", type := "SHARE", sourceUserId := "bob",
      targetUserId := some "bob",
      data := { postId := some "p1", commentId := none, content := none,
                mentionedUsers := none },
      timestamp := 0, processed := false, notificationsGenerated := [] }
    0 (exUuid "s") (fun _ => false) false exBase).1
    (Or.inr (Or.inr rfl)) rfl

/-- C6: the status of a notification only ever steps along the allowed
transitions (stay, unread to read, unread or read to dismissed) under
markAsRead, dismiss and the per-document action of markAllAsRead; nothing
leaves dismissed, nothing returns from read to unread, and a second
markAsRead leaves the whole record (readAt included) unchanged. -/
theorem C6_status_transitions (n : Notification) (t1 t2 : Int) (uid : String)
    (henum : n.status = "unread" ∨ n.status = "read" ∨ n.status = "dismissed") :
    statusStep n.status (markAsRead n t1).status
    ∧ statusStep n.status (dismiss n t1).status
    ∧ statusStep n.status (markAllStep uid t1 n).status
    ∧ (n.status = "dismissed" →
        markAsRead n t1 = n ∧ (dismiss n t1).status = "dismissed" ∧
          markAllStep uid t1 n = n)
    ∧ (n.status = "read" →
        (markAsRead n t1).status ≠ "unread" ∧ (dismiss n t1).status ≠ "unread" ∧
          (markAllStep uid t1 n).status ≠ "unread")
    ∧ markAsRead (markAsRead n t1) t2 = markAsRead n t1
    ∧ markAllAsRead [n] uid t1 = [markAllStep uid t1 n] := by
  rcases henum with h | h | h
  · refine ⟨?_, ?_, ?_, ?_, ?_, ?_, rfl⟩
    · simp [markAsRead, h, statusStep]
    · simp [dismiss, h, statusStep]
    · by_cases huid : n.userId = uid <;> simp [markAllStep, h, huid, statusStep]
    · simp [h]
    · simp [h]
    · simp [markAsRead, h]
  · refine ⟨?_, ?_, ?_, ?_, ?_, ?_, rfl⟩
    · simp [markAsRead, h, statusStep]
    · simp [dismiss, h, statusStep]
    · simp [markAllStep, h, statusStep]
    · simp [h]
    · intro _
      refine ⟨?_, ?_, ?_⟩ <;> simp [markAsRead, dismiss, markAllStep, h]
    · simp [markAsRead, h]
  · refine ⟨?_, ?_, ?_, ?_, ?_, ?_, rfl⟩
    · simp [markAsRead, h, statusStep]
    · simp [dismiss, h, statusStep]
    · simp [markAllStep, h, statusStep]
    · intro _
      refine ⟨?_, ?_, ?_⟩ <;> simp [markAsRead, dismiss, markAllStep, h]
    · simp [h]
    · simp [markAsRead, h]

/-- C6 witness: the theorem applied to a concrete unread notification. -/
theorem C6_status_transitions_witness :
    statusStep (mkNotification (exLike "e1" 0) exAlice exBob 0 "a0" exBase).status
      (markAsRead (mkNotification (exLike "e1" 0) exAlice exBob 0 "a0" exBase) 5).status :=
  (C6_status_transitions (mkNotification (exLike "e1" 0) exAlice exBob 0 "a0" exBase)
    5 6 "bob" (Or.inl rfl)).1

theorem retention_pred_iff (n : Notification) (now : Int) :
    (!(decide (n.timestamp < now - 2592000000) &&
       (n.status == "read" || n.status == "dismissed"))) = true ↔
    ¬(n.timestamp < now - 2592000000 ∧
       (n.status = "read" ∨ n.status = "dismissed")) := by
  by_cases h1 : n.timestamp < now - 2592000000 <;>
    by_cases h2 : n.status = "read" <;>
      by_cases h3 : n.status = "dismissed" <;>
        simp [h1, h2, h3]

theorem retention_mem_iff (store : List Notification) (now : Int)
    (n : Notification) :
    n ∈ cleanupOldNotifications store now ↔
      n ∈ store ∧ ¬(n.timestamp < now - 2592000000 ∧
        (n.status = "read" ∨ n.status = "dismissed")) := by
  rw [cleanupOldNotifications, List.mem_filter, retention_pred_iff]

theorem unread_survives_retention (store : List Notification) (now : Int) :
    ∀ n ∈ store, n.status = "unread" → n ∈ cleanupOldNotifications store now := by
  intro n hn hun
  refine (retention_mem_iff store now n).mpr ⟨hn, ?_⟩
  rintro ⟨_, h | h⟩ <;> rw [hun] at h <;> exact absurd h (by decide)

/-- C7: the retention sweep deletes exactly the notifications that are both
older than the thirty-day horizon and in status read or dismissed; every
unread notification survives it regardless of age. -/
theorem C7_retention_sweep (store : List Notification) (now : Int) :
    (∀ n ∈ store, n ∉ cleanupOldNotifications store now →
      n.timestamp < now - 2592000000 ∧
        (n.status = "read" ∨ n.status = "dismissed"))
    ∧ (∀ n ∈ store, n.timestamp < now - 2592000000 →
      (n.status = "read" ∨ n.status = "dismissed") →
      n ∉ cleanupOldNotifications store now)
    ∧ (∀ n ∈ store, n.status = "unread" → n ∈ cleanupOldNotifications store now) := by
  refine ⟨?_, ?_, unread_survives_retention store now⟩
  · intro n hn hnm
    by_contra hcon
    exact hnm ((retention_mem_iff store now n).mpr ⟨hn, hcon⟩)
  · intro n _ hts hst habs
    exact ((retention_mem_iff store now n).mp habs).2 ⟨hts, hst⟩

/-- C7 witness: an ancient unread notification survives the retention
sweep. -/
theorem C7_retention_sweep_witness :
    mkNotification (exLike "e1" 0) exAlice exBob 0 "a0" exBase ∈
      cleanupOldNotifications
        [mkNotification (exLike "e1" 0) exAlice exBob 0 "a0" exBase]
        9000000000 :=
  (C7_retention_sweep
    [mkNotification (exLike "e1" 0) exAlice exBob 0 "a0" exBase]
    9000000000).2.2
    (mkNotification (exLike "e1" 0) exAlice exBob 0 "a0" exBase)
    (by decide) rfl

/-- C8: for a COMMENT event carrying nonempty textual content, the rendered
notification text embeds the source user display name and an excerpt of at
most fifty characters of the comment; the ellipsis marker appears exactly
when the comment exceeds fifty characters, and a comment of at most fifty
characters appears whole with no marker. -/
theorem C8_comment_truncation (e : Event) (su : User) (c : String)
    (ht : e.type = "COMMENT") (hc : e.data.content = some c)
    (hne : c.data ≠ []) :
    (c.data.length ≤ 50 →
      generateNotificationContent e su =
        su.username ++ " commented: \"" ++ c ++ "\"")
    ∧ (50 < c.data.length →
      generateNotificationContent e su =
        su.username ++ " commented: \"" ++ substringFirst50 c ++ "..." ++ "\""
      ∧ (substringFirst50 c).data.length = 50)
    ∧ (substringFirst50 c).data.length ≤ 50 := by
  have hemp : c.data.isEmpty = false := by
    cases hd : c.data with
    | nil => exact absurd hd hne
    | cons a l => rfl
  have hred : generateNotificationContent e su =
      su.username ++ " commented: \"" ++ substringFirst50 c ++
        (if 50 < c.data.length then "..." else "") ++ "\"" := by
    rw [generateNotificationContent]
    simp [ht, hc, hemp]
  refine ⟨?_, ?_, ?_⟩
  · intro hlen
    have hsub : substringFirst50 c = c := by
      rw [substringFirst50, List.take_of_length_le hlen]
    rw [hred, if_neg (not_lt.mpr hlen), hsub, String.append_empty]
  · intro hlen
    refine ⟨by rw [hred, if_pos hlen], ?_⟩
    show (c.data.take 50).length = 50
    rw [List.length_take]
    exact Nat.min_eq_left (le_of_lt hlen)
  · show (c.data.take 50).length ≤ 50
    rw [List.length_take]
    exact Nat.min_le_left _ _

def exCommentEvent : Event :=
  { eventId := "ec", type := "COMMENT", sourceUserId := "alice",
    targetUserId := some "bob",
    data := { postId := some "p1", commentId := some "c1",
              content := some "Nice work!", mentionedUsers := none },
    timestamp := 0, processed := false, notificationsGenerated := [] }

/-- C8 witness: the short-comment half applied to a ten-character comment. -/
theorem C8_comment_truncation_witness :
    generateNotificationContent exCommentEvent exAlice =
      exAlice.username ++ " commented: \"" ++ "Nice work!" ++ "\"" :=
  (C8_comment_truncation exCommentEvent exAlice "Nice work!" rfl rfl
    (by decide)).1 (by decide)

/-- C9: the User schema admits only LIKE, FOLLOW, COMMENT, POST_CREATE and
MENTION inside preferences.notificationTypes, so SHARE can never be stored;
under that schema invariant a SHARE event resolves to zero recipients and
its processing writes no notification. -/
theorem C9_share_never_notifies (db : DB) (e : Event) (now : Int)
    (uuid : Nat → String) (saveFails : String → Bool) (updateFails : Bool)
    (baseUrl : String)
    (hschema : ∀ u ∈ db.users, ∀ t ∈ u.preferences.notificationTypes,
      t ∈ allowedNotificationTypes)
    (hty : e.type = "SHARE") :
    "SHARE" ∉ allowedNotificationTypes
    ∧ getNotificationRecipients db.users e = []
    ∧ (processEvent db e now uuid saveFails updateFails baseUrl).2.notifications =
        db.notifications := by
  have htr : targetRecipient db.users e = [] := by
    cases htg : e.targetUserId with
    | none => simp [targetRecipient, htg]
    | some tid =>
      by_cases hcond : tid ≠ "" ∧ tid ≠ e.sourceUserId
      · cases hf : findByUserId db.users tid with
        | none => simp [targetRecipient, htg, hcond, hf]
        | some tu =>
          have htu : tu ∈ db.users := List.mem_of_find?_eq_some hf
          have hnotrcv : shouldReceiveNotification tu e.type = false := by
            by_contra hx
            have htrue : shouldReceiveNotification tu e.type = true := by
              cases hb : shouldReceiveNotification tu e.type
              · exact absurd hb hx
              · rfl
            have hmemp := (shouldReceive_iff tu e.type).mp htrue
            rw [hty] at hmemp
            exact absurd (hschema tu htu "SHARE" hmemp) (by decide)
          simp [targetRecipient, htg, hcond, hf, hnotrcv]
      · simp [targetRecipient, htg, hcond]
  have hrec : getNotificationRecipients db.users e = [] := by
    rw [getNotificationRecipients]
    simp [hty, htr]
  exact ⟨by decide, hrec,
    processEvent_notifications_of_no_recipients db e now uuid saveFails
      updateFails baseUrl hrec⟩

def exShareEvent : Event :=
  { eventId := "esh", type := "SHARE", sourceUserId := "alice",
    targetUserId := some "bob",
    data := { postId := some "p1", commentId := none, content := none,
              mentionedUsers := none },
    timestamp := 0, processed := false, notificationsGenerated := [] }

/-- C9 witness: the theorem applied to a SHARE event between two users with
the schema-default preference set. -/
theorem C9_share_never_notifies_witness :
    getNotificationRecipients exLikeDb.users exShareEvent = []
    ∧ (processEvent exLikeDb exShareEvent 0 (exUuid "s") (fun _ => false)
        false exBase).2.notifications = exLikeDb.notifications :=
  ⟨(C9_share_never_notifies exLikeDb exShareEvent 0 (exUuid "s")
      (fun _ => false) false exBase (by decide) rfl).2.1,
   (C9_share_never_notifies exLikeDb exShareEvent 0 (exUuid "s")
      (fun _ => false) false exBase (by decide) rfl).2.2⟩

/-- C10: the application-exposed expiry cleanup behind the cleanup route
deletes exactly the notifications whose expiresAt lies in the past, with no
regard to status: an expired unread notification is deleted by it, while
the retention sweep keeps every unread notification. -/
theorem C10_expiry_cleanup (store : List Notification) (now : Int) :
    (∀ n ∈ store, n.expiresAt < now → n ∉ cleanupExpired store now)
    ∧ (∀ n ∈ store, n ∉ cleanupExpired store now → n.expiresAt < now)
    ∧ (∀ n ∈ store, n.status = "unread" → n.expiresAt < now →
        n ∉ cleanupExpired store now)
    ∧ (∀ n ∈ store, n.status = "unread" → n ∈ cleanupOldNotifications store now)
    ∧ (postNotificationsCleanup store now).1 = cleanupExpired store now := by
  have hmem : ∀ n, n ∈ cleanupExpired store now ↔
      n ∈ store ∧ ¬(n.expiresAt < now) := by
    intro n
    rw [cleanupExpired, List.mem_filter]
    simp
  refine ⟨?_, ?_, ?_, ?_, rfl⟩
  · intro n _ hlt habs
    exact ((hmem n).mp habs).2 hlt
  · intro n hn hnm
    by_contra hcon
    exact hnm ((hmem n).mpr ⟨hn, hcon⟩)
  · intro n _ _ hlt habs
    exact ((hmem n).mp habs).2 hlt
  · intro n hn hun
    exact unread_survives_retention store now n hn hun

def exExpiredUnread : Notification :=
  { notificationId := "nx", userId := "bob", type := "LIKE",
    content := "Alice liked your post", status := "unread",
    relatedEventId := "e1", sourceUserId := "alice",
    dataPostId := some "p1", dataCommentId := none,
    dataUrl := "http://localhost:3000/posts/p1",
    timestamp := 0, readAt := none, dismissedAt := none, expiresAt := 50 }

/-- C10 witness: an expired unread notification is removed by the expiry
cleanup yet kept by the retention sweep. -/
theorem C10_expiry_cleanup_witness :
    exExpiredUnread ∉ cleanupExpired [exExpiredUnread] 100
    ∧ exExpiredUnread ∈ cleanupOldNotifications [exExpiredUnread] 100 :=
  ⟨(C10_expiry_cleanup [exExpiredUnread] 100).2.2.1 exExpiredUnread
     (by decide) rfl (by decide),
   (C10_expiry_cleanup [exExpiredUnread] 100).2.2.2.1 exExpiredUnread
     (by decide) rfl⟩

/-- C2: when the source user resolves and the final event update succeeds,
processEvent returns ok with the notifications actually written: the store
grows by exactly those notifications, candidates suppressed by
deduplication or lost to a save failure are excluded, and one update marks
the event processed while recording exactly the (notificationId, userId)
pairs of the written notifications — also when that list is empty. -/
theorem C2_processed_atomically (db : DB) (e : Event) (su : User) (ev : Event)
    (now : Int) (uuid : Nat → String) (saveFails : String → Bool)
    (baseUrl : String)
    (hsrc : findByUserId db.users e.sourceUserId = some su)
    (hev : db.events.find? (fun g => g.eventId == e.eventId) = some ev) :
    ∃ written,
      processEvent db e now uuid saveFails false baseUrl =
        (ProcessResult.ok written,
         { users := db.users,
           events := markProcessed db.events e.eventId
             (written.map (fun n => (n.notificationId, n.userId))),
           notifications := db.notifications ++ written })
      ∧ (markProcessed db.events e.eventId
          (written.map (fun n => (n.notificationId, n.userId)))).find?
            (fun g => g.eventId == e.eventId) =
          some { ev with
                 processed := true,
                 notificationsGenerated :=
                   written.map (fun n => (n.notificationId, n.userId)) } := by
  refine ⟨(fanout e su now uuid saveFails baseUrl 0
      (getNotificationRecipients db.users e) db.notifications).1, ?_, ?_⟩
  · have hst := fanout_store e su now uuid saveFails baseUrl
      (getNotificationRecipients db.users e) 0 db.notifications
    simp [processEvent, hsrc, hst]
  · exact markProcessed_find e.eventId _ db.events ev hev

/-- C2 witness: a MENTION event with two eligible recipients where the save
for u1 fails; the event is marked processed with exactly the surviving
notification for u3 recorded. -/
theorem C2_processed_atomically_witness :
    ∃ written,
      processEvent exMentionDb exMentionEvent 0 (exUuid "m")
          (fun uid => uid == "u1") false exBase =
        (ProcessResult.ok written,
         { users := exMentionDb.users,
           events := markProcessed exMentionDb.events exMentionEvent.eventId
             (written.map (fun n => (n.notificationId, n.userId))),
           notifications := exMentionDb.notifications ++ written })
      ∧ (markProcessed exMentionDb.events exMentionEvent.eventId
          (written.map (fun n => (n.notificationId, n.userId)))).find?
            (fun g => g.eventId == exMentionEvent.eventId) =
          some { exMentionEvent with
                 processed := true,
                 notificationsGenerated :=
                   written.map (fun n => (n.notificationId, n.userId)) } :=
  C2_processed_atomically exMentionDb exMentionEvent exU2 exMentionEvent 0
    (exUuid "m") (fun uid => uid == "u1") exBase (by decide) (by decide)

/-- C4: the recovery sweep selects exactly the events with processed false,
returns them sorted by ascending timestamp, and an event already marked
processed is not selected; running the whole sweep neither changes the
record of a processed event nor adds any notification tied to it. -/
theorem C4_recovery_sweep (db : DB) (e : Event) (now : Int)
    (uuid2 : Nat → Nat → String) (saveFails : String → Bool)
    (updateFails : Nat → Bool) (baseUrl : String)
    (hnd : (db.events.map (fun g => g.eventId)).Nodup)
    (he : e ∈ db.events) (hp : e.processed = true) :
    (∀ f, f ∈ getUnprocessedEvents db.events ↔
      (f ∈ db.events ∧ f.processed = false))
    ∧ List.Sorted eventLe (getUnprocessedEvents db.events)
    ∧ e ∉ getUnprocessedEvents db.events
    ∧ (processUnprocessedEvents db now uuid2 saveFails updateFails
        baseUrl).events.filter (fun g => g.eventId == e.eventId) =
      db.events.filter (fun g => g.eventId == e.eventId)
    ∧ ∃ new,
        (processUnprocessedEvents db now uuid2 saveFails updateFails
          baseUrl).notifications = db.notifications ++ new
        ∧ ∀ n ∈ new, n.relatedEventId ≠ e.eventId := by
  have hiff : ∀ f, f ∈ getUnprocessedEvents db.events ↔
      (f ∈ db.events ∧ f.processed = false) := by
    intro f
    rw [getUnprocessedEvents, List.mem_insertionSort, List.mem_filter]
    simp
  have hnotmem : e ∉ getUnprocessedEvents db.events := by
    intro hx
    have hfalse := ((hiff e).mp hx).2
    rw [hp] at hfalse
    exact absurd hfalse (by decide)
  have hne : ∀ f ∈ getUnprocessedEvents db.events, f.eventId ≠ e.eventId := by
    intro f hf hid
    have hfm := (hiff f).mp hf
    have hfe : f = e := List.inj_on_of_nodup_map hnd hfm.1 he hid
    rw [hfe, hp] at hfm
    exact absurd hfm.2 (by decide)
  have hsweep := sweepGo_effect now uuid2 saveFails updateFails baseUrl
    e.eventId (getUnprocessedEvents db.events) 0 db hne
  exact ⟨hiff, List.sorted_insertionSort eventLe _, hnotmem, hsweep.1, hsweep.2⟩

def exProcessedEvent : Event :=
  { eventId := "ep", type := "LIKE", sourceUserId := "alice",
    targetUserId := some "bob",
    data := { postId := some "p1", commentId := none, content := none,
              mentionedUsers := none },
    timestamp := 5, processed := true, notificationsGenerated := [] }

def exSweepDb : DB :=
  { users := [exAlice, exBob],
    events := [exProcessedEvent, exLike "e1" 0],
    notifications := [] }

/-- C4 witness: on a database holding one processed and one unprocessed
event, the processed event is not selected and the sweep leaves its record
untouched. -/
theorem C4_recovery_sweep_witness :
    exProcessedEvent ∉ getUnprocessedEvents exSweepDb.events
    ∧ (processUnprocessedEvents exSweepDb 7 (fun i j => exUuid "w" (i + j))
        (fun _ => false) (fun _ => false) exBase).events.filter
          (fun g => g.eventId == exProcessedEvent.eventId) =
      exSweepDb.events.filter (fun g => g.eventId == exProcessedEvent.eventId) := by
  have h := C4_recovery_sweep exSweepDb exProcessedEvent 7
    (fun i j => exUuid "w" (i + j)) (fun _ => false) (fun _ => false) exBase
    (by decide) (by decide) rfl
  exact ⟨h.2.2.1, h.2.2.2.1⟩
